import Mathlib

/-!
Shallow embedding of `src/tools/panel_wrapper.c`, a privileged dispatcher
that validates a command and optional argument, checks the provenance of a
fixed target script, builds a sanitized environment and transfers control
to the script via execve.

Modelling conventions:
- C strings become Lean `String`; `strlen` becomes `String.utf8ByteSize`
  (byte length of the UTF-8 encoding, matching C byte counts on the
  ASCII-only literals the program compares against) and `strncmp(s, lit, n)`
  with `n = strlen lit` becomes `starts_with s lit`, a structural
  character-list prefix test that agrees with the byte-level comparison
  because the literals are ASCII.
- Nullable `const char *` parameters become `Option String`.
- `uid_t` is a 32-bit unsigned integer; it is modelled as `Nat`, with the
  C expression `(uid_t)-1` modelled as the explicit constant `2^32 - 1`.
- The ambient system state (result of `getpwnam("panel")`, per-path
  `stat` owner, per-path `access(path, X_OK)` success, `malloc` success,
  whether the log file can be opened, and the caller identities returned
  by `getuid`/`geteuid`/`getgid`) is a `World` record; each libc call
  reads the corresponding field.
- The program outcome is either `Outcome.exit code` (the process returns
  `code` without invoking any target) or `Outcome.exec path args env`,
  meaning control reached the `execve(path, args, env)` call with exactly
  those arguments.  The audit log is threaded explicitly as a list of
  message bodies (timestamps, which are pure formatting, are not modelled).
-/

namespace PanelWrapper

def LOGFILE : String := "/var/log/panel/panel-wrapper.log"

def AUTODEPLOY : String := "/opt/panel/scripts/autodeploy.sh"

def MEMWATCH : String := "/opt/panel/scripts/memwatch.sh"

/-- The C expression `(uid_t)-1` on a 32-bit `uid_t`. -/
def UID_MINUS_ONE : Nat := 4294967295

/-- Structural prefix test on character lists (first argument the string,
second the literal).  On the ASCII literals the program compares against,
this coincides with the byte-level `strncmp(s, lit, strlen(lit)) == 0`. -/
def chars_start_with : List Char → List Char → Bool
  | _, [] => true
  | [], _ :: _ => false
  | c :: cs, d :: ds => c == d && chars_start_with cs ds

/-- `strncmp(s, lit, strlen(lit)) == 0` for an ASCII literal `lit`. -/
def starts_with (s lit : String) : Bool :=
  chars_start_with s.data lit.data

/-- Ambient system state read by the libc calls the program makes. -/
structure World where
  uid : Nat
  euid : Nat
  gid : Nat
  /-- `getpwnam("panel")`: `some u` when the account exists with uid `u`,
  `none` when the lookup fails (returns NULL). -/
  panelUid : Option Nat
  /-- `stat(path, &st)`: `some st_uid` on success, `none` on failure. -/
  statUid : String → Option Nat
  /-- `access(path, X_OK) == 0`. -/
  executable : String → Bool
  /-- Whether `malloc`/`strdup` succeed while building the environment. -/
  allocOk : Bool
  /-- Whether `fopen(LOGFILE, "a")` succeeds. -/
  logOpenable : Bool

/-- `logmsg`: append one message to the log if it can be opened; if
`fopen` fails the function returns with the log unchanged and no error. -/
def logmsg (w : World) (log : List String) (msg : String) : List String :=
  if w.logOpenable then log ++ [msg] else log

/-- `file_owned_by_allowed`: stat the file; on stat failure return 0.
Look up the uid of account "panel" at call time, substituting `(uid_t)-1`
when the lookup fails; accept when the owner is root or that uid. -/
def file_owned_by_allowed (w : World) (path : String) : Bool :=
  match w.statUid path with
  | none => false
  | some st_uid =>
    let panel_uid : Nat :=
      match w.panelUid with
      | some u => u
      | none => UID_MINUS_ONE
    if st_uid == 0 || st_uid == panel_uid then true else false

/-- `is_valid_url`: non-NULL, at most 2048 bytes, and starting with the
exact byte sequence "http://" or "https://". -/
def is_valid_url : Option String → Bool
  | none => false
  | some u =>
    if u.utf8ByteSize > 2048 then false
    else if starts_with u "http://" then true
    else if starts_with u "https://" then true
    else false

/-- `is_safe_path`: non-NULL, at most 4096 bytes, starting with the byte
"/" and with one of the byte sequences "/var/run/", "/var/tmp/", "/tmp/". -/
def is_safe_path : Option String → Bool
  | none => false
  | some p =>
    if p.utf8ByteSize > 4096 then false
    else if !(starts_with p "/") then false
    else if starts_with p "/var/run/" then true
    else if starts_with p "/var/tmp/" then true
    else if starts_with p "/tmp/" then true
    else false

/-- Final state of one invocation: a numeric process exit, or the
`execve(path, args, env)` call reached with exactly those values. -/
inductive Outcome
  | exit (code : Nat)
  | exec (path : String) (args : List String) (env : List String)
deriving DecidableEq, Repr

/-- `envp_default` in `main`. -/
def envp_default : List String := ["PATH=/usr/bin:/bin", "LANG=C"]

/-- The sanitized environment built in `main`: the default two entries,
with a command-specific entry prepended when an argument was supplied. -/
def buildEnv (cmd : String) (arg : Option String) : List String :=
  match arg with
  | none => envp_default
  | some a =>
    if cmd == "autodeploy" then
      ["DOWNLOAD_URL=" ++ a, "PATH=/usr/bin:/bin", "LANG=C"]
    else
      ["ET_PID_FILE=" ++ a, "PATH=/usr/bin:/bin", "LANG=C"]

/-- The tail of `main` after command dispatch and argument validation:
executability check (exit 4), ownership check (exit 5), environment
construction (exit 10 on allocation failure, which can only happen when
an argument is present), then the execve call. -/
def runChecked (w : World) (log : List String) (cmd : String)
    (arg : Option String) (script : String) : Outcome × List String :=
  if !(w.executable script) then
    (Outcome.exit 4, logmsg w log ("script not executable: " ++ script))
  else if !(file_owned_by_allowed w script) then
    (Outcome.exit 5, logmsg w log ("script not owned by panel or root: " ++ script))
  else if arg.isSome && !w.allocOk then
    (Outcome.exit 10, log)
  else
    (Outcome.exec script [script] (buildEnv cmd arg),
     logmsg w log ("executing " ++ script))

/-- `main`: `argv` is the full argument vector including `argv[0]`.
Fewer than two entries is a usage error (exit 2, nothing logged); then
the command is dispatched, the optional argument `argv[2]` validated
(exit 3 on violation), and control proceeds to the provenance checks and
the environment build of `runChecked`. -/
def run (w : World) (argv : List String) : Outcome × List String :=
  match argv with
  | _argv0 :: cmd :: rest =>
    let arg : Option String := rest.head?
    let log0 := logmsg w []
      ("invoked by uid=" ++ toString w.uid ++ " euid=" ++ toString w.euid ++
       " gid=" ++ toString w.gid ++ " cmd=" ++ cmd ++ " arg=" ++ arg.getD "(none)")
    if cmd == "autodeploy" then
      if arg.isSome && !(is_valid_url arg) then
        (Outcome.exit 3, logmsg w log0 ("invalid download URL: " ++ arg.getD ""))
      else
        runChecked w log0 cmd arg AUTODEPLOY
    else if cmd == "memwatch" then
      if arg.isSome && !(is_safe_path arg) then
        (Outcome.exit 3, logmsg w log0 ("invalid pid file path: " ++ arg.getD ""))
      else
        runChecked w log0 cmd arg MEMWATCH
    else
      (Outcome.exit 2, logmsg w log0 ("unknown command: " ++ cmd))
  | _ => (Outcome.exit 2, [])

/-- The fixed script selected by a recognized command. -/
def scriptFor (cmd : String) : String :=
  if cmd == "autodeploy" then AUTODEPLOY else MEMWATCH

/-- The command-specific argument grammar, as the code applies it: an
absent argument is always accepted; a present one goes through
`is_valid_url` for autodeploy and `is_safe_path` for memwatch. -/
def arg_ok (cmd : String) (arg : Option String) : Bool :=
  match arg with
  | none => true
  | some a => if cmd == "autodeploy" then is_valid_url (some a) else is_safe_path (some a)

end PanelWrapper

namespace PanelWrapper

/-! ### Helper lemmas about the embedding -/

/-- The first component of `runChecked` does not depend on the log
accumulated so far. -/
theorem runChecked_fst_log (w : World) (log log2 : List String) (cmd : String)
    (arg : Option String) (script : String) :
    (runChecked w log cmd arg script).fst = (runChecked w log2 cmd arg script).fst := by
  unfold runChecked
  split_ifs <;> rfl

/-- `runChecked` either exits with 4, 5 or 10, or reaches execve on the
given script with only the script name as argument and the built
environment. -/
theorem runChecked_fst_cases (w : World) (log : List String) (cmd : String)
    (arg : Option String) (script : String) :
    (runChecked w log cmd arg script).fst = Outcome.exit 4 ∨
    (runChecked w log cmd arg script).fst = Outcome.exit 5 ∨
    (runChecked w log cmd arg script).fst = Outcome.exit 10 ∨
    (runChecked w log cmd arg script).fst =
      Outcome.exec script [script] (buildEnv cmd arg) := by
  unfold runChecked
  split_ifs <;> simp

/-- Closed form of the outcome of `run` on an argument vector with at
least two entries, with the log threading removed. -/
theorem run_fst_eq (w : World) (a0 cmd : String) (rest : List String) :
    (run w (a0 :: cmd :: rest)).fst =
      if cmd == "autodeploy" then
        (if (rest.head?).isSome && !(is_valid_url rest.head?) then Outcome.exit 3
         else (runChecked w [] cmd rest.head? AUTODEPLOY).fst)
      else if cmd == "memwatch" then
        (if (rest.head?).isSome && !(is_safe_path rest.head?) then Outcome.exit 3
         else (runChecked w [] cmd rest.head? MEMWATCH).fst)
      else Outcome.exit 2 := by
  simp only [run]
  split_ifs <;> first
    | rfl
    | apply runChecked_fst_log

end PanelWrapper

namespace PanelWrapper

/-- Validity of a present autodeploy argument, unfolded. -/
theorem is_valid_url_some_iff (u : String) :
    is_valid_url (some u) = true ↔
      u.utf8ByteSize ≤ 2048 ∧
        (starts_with u "http://" = true ∨ starts_with u "https://" = true) := by
  simp only [is_valid_url]
  split_ifs with h1 h2 h3 <;> simp_all

/-- Validity of a present memwatch argument, unfolded. -/
theorem is_safe_path_some_iff (p : String) :
    is_safe_path (some p) = true ↔
      p.utf8ByteSize ≤ 4096 ∧ starts_with p "/" = true ∧
        (starts_with p "/var/run/" = true ∨ starts_with p "/var/tmp/" = true ∨
          starts_with p "/tmp/" = true) := by
  simp only [is_safe_path]
  split_ifs with h1 h2 h3 h4 h5 <;> simp_all

/-- When the panel account lookup succeeds, the ownership check accepts
exactly the files whose stat succeeds with owner 0 or the panel uid. -/
theorem file_owned_by_allowed_some_iff (w : World) (pu : Nat)
    (hpu : w.panelUid = some pu) (path : String) :
    file_owned_by_allowed w path = true ↔
      ∃ su, w.statUid path = some su ∧ (su = 0 ∨ su = pu) := by
  unfold file_owned_by_allowed
  rw [hpu]
  cases hst : w.statUid path with
  | none => simp
  | some su =>
    dsimp only
    split_ifs with h <;> simp_all

/-- When the panel account lookup fails, the ownership check accepts
exactly the files whose stat succeeds with owner 0 or `(uid_t)-1`. -/
theorem file_owned_by_allowed_none_iff (w : World)
    (hpu : w.panelUid = none) (path : String) :
    file_owned_by_allowed w path = true ↔
      ∃ su, w.statUid path = some su ∧ (su = 0 ∨ su = UID_MINUS_ONE) := by
  unfold file_owned_by_allowed
  rw [hpu]
  cases hst : w.statUid path with
  | none => simp
  | some su =>
    dsimp only
    split_ifs with h <;> simp_all

/-- Any run that reaches execve does so on a recognized command, on the
script statically mapped to that command, with only the script name as
argument vector and the environment built from the optional `argv[2]`. -/
theorem run_exec_shape (w : World) (a0 cmd : String) (rest : List String)
    (p : String) (args env : List String)
    (h : (run w (a0 :: cmd :: rest)).fst = Outcome.exec p args env) :
    (cmd = "autodeploy" ∨ cmd = "memwatch") ∧
      p = scriptFor cmd ∧ args = [p] ∧ env = buildEnv cmd rest.head? := by
  rw [run_fst_eq] at h
  by_cases h1 : cmd = "autodeploy"
  · subst h1
    simp only [beq_self_eq_true, if_true, if_pos] at h
    rcases runChecked_fst_cases w [] "autodeploy" rest.head? AUTODEPLOY with
      hc | hc | hc | hc <;>
      split_ifs at h <;> simp_all [scriptFor]
  · by_cases h2 : cmd = "memwatch"
    · subst h2
      simp only [show (("memwatch" : String) == "autodeploy") = false by decide,
        beq_self_eq_true, if_true, if_false, Bool.false_eq_true] at h
      rcases runChecked_fst_cases w [] "memwatch" rest.head? MEMWATCH with
        hc | hc | hc | hc <;>
        split_ifs at h <;> simp_all [scriptFor]
    · have hb1 : (cmd == "autodeploy") = false := by
        simpa using h1
      have hb2 : (cmd == "memwatch") = false := by
        simpa using h2
      rw [hb1, hb2] at h
      simp at h

end PanelWrapper

namespace PanelWrapper

/-- The ownership check only reads the stat owner and the panel account
lookup result: worlds agreeing on those fields agree on the check. -/
theorem file_owned_by_allowed_congr (w w2 : World)
    (hpanel : w2.panelUid = w.panelUid) (hstat : w2.statUid = w.statUid)
    (path : String) :
    file_owned_by_allowed w2 path = file_owned_by_allowed w path := by
  unfold file_owned_by_allowed
  rw [hpanel, hstat]

/-- The outcome of `runChecked` only reads the executability, stat,
account-lookup and allocation fields of the world. -/
theorem runChecked_fst_congr (w w2 : World)
    (hpanel : w2.panelUid = w.panelUid) (hstat : w2.statUid = w.statUid)
    (hex : w2.executable = w.executable) (halloc : w2.allocOk = w.allocOk)
    (log log2 : List String) (cmd : String) (arg : Option String)
    (script : String) :
    (runChecked w2 log2 cmd arg script).fst = (runChecked w log cmd arg script).fst := by
  unfold runChecked
  rw [hex, halloc, file_owned_by_allowed_congr w w2 hpanel hstat]
  split_ifs <;> rfl

/-- The outcome of `run` only reads the executability, stat,
account-lookup and allocation fields of the world: in particular it is
independent of whether the audit log can be opened. -/
theorem run_fst_congr (w w2 : World)
    (hpanel : w2.panelUid = w.panelUid) (hstat : w2.statUid = w.statUid)
    (hex : w2.executable = w.executable) (halloc : w2.allocOk = w.allocOk)
    (argv : List String) :
    (run w2 argv).fst = (run w argv).fst := by
  match argv with
  | [] => rfl
  | [a0] => rfl
  | a0 :: cmd :: rest =>
    rw [run_fst_eq, run_fst_eq]
    split_ifs <;> first
      | rfl
      | exact runChecked_fst_congr w w2 hpanel hstat hex halloc [] [] cmd rest.head? _

end PanelWrapper

namespace PanelWrapper

/-- `runChecked` never produces the invalid-argument exit code. -/
theorem runChecked_fst_ne_exit3 (w : World) (log : List String) (cmd : String)
    (arg : Option String) (script : String) :
    (runChecked w log cmd arg script).fst ≠ Outcome.exit 3 := by
  rcases runChecked_fst_cases w log cmd arg script with hc | hc | hc | hc <;>
    rw [hc] <;> simp

/-- A non-executable target makes `runChecked` exit with code 4. -/
theorem runChecked_exit4 (w : World) (log : List String) (cmd : String)
    (arg : Option String) (script : String)
    (hex : w.executable script = false) :
    (runChecked w log cmd arg script).fst = Outcome.exit 4 := by
  unfold runChecked
  rw [hex]
  rfl

/-- An executable target failing the ownership check makes `runChecked`
exit with code 5. -/
theorem runChecked_exit5 (w : World) (log : List String) (cmd : String)
    (arg : Option String) (script : String)
    (hex : w.executable script = true)
    (hown : file_owned_by_allowed w script = false) :
    (runChecked w log cmd arg script).fst = Outcome.exit 5 := by
  unfold runChecked
  rw [hex, hown]
  rfl

/-- `arg_ok` for a present autodeploy argument is the URL grammar. -/
theorem arg_ok_autodeploy (a : String) :
    arg_ok "autodeploy" (some a) = is_valid_url (some a) := rfl

/-- `arg_ok` for a present memwatch argument is the path grammar. -/
theorem arg_ok_memwatch (a : String) :
    arg_ok "memwatch" (some a) = is_safe_path (some a) := rfl

/-- On a recognized command whose optional argument passes its grammar,
the run proceeds to the provenance checks on the command's script. -/
theorem run_fst_valid (w : World) (a0 cmd : String) (rest : List String)
    (hcmd : cmd = "autodeploy" ∨ cmd = "memwatch")
    (hok : arg_ok cmd rest.head? = true) :
    (run w (a0 :: cmd :: rest)).fst =
      (runChecked w [] cmd rest.head? (scriptFor cmd)).fst := by
  rw [run_fst_eq]
  rcases hcmd with h | h <;> subst h
  · cases hr : rest.head? with
    | none => simp [scriptFor]
    | some a =>
      rw [hr] at hok
      rw [arg_ok_autodeploy] at hok
      simp [scriptFor, hok]
  · cases hr : rest.head? with
    | none => simp [scriptFor]
    | some a =>
      rw [hr] at hok
      rw [arg_ok_memwatch] at hok
      simp [scriptFor, hok]

/-- The environment built for a present argument, in closed form. -/
theorem buildEnv_some (cmd a : String) :
    buildEnv cmd (some a) =
      [(if cmd == "autodeploy" then "DOWNLOAD_URL=" ++ a else "ET_PID_FILE=" ++ a),
       "PATH=/usr/bin:/bin", "LANG=C"] := by
  cases hb : cmd == "autodeploy" <;> simp [buildEnv, hb]

end PanelWrapper

namespace PanelWrapper

/-! ### Concrete worlds used by witnesses and counterexamples -/

/-- A world in which every check succeeds: the panel account exists, both
scripts are executable and root-owned, allocation works, the log opens. -/
def Wok : World :=
  { uid := 1000, euid := 0, gid := 1000, panelUid := some 997,
    statUid := fun _ => some 0, executable := fun _ => true,
    allocOk := true, logOpenable := true }

/-- Like `Wok` but no file has execute permission for the caller. -/
def Wnx : World :=
  { uid := 1000, euid := 0, gid := 1000, panelUid := some 997,
    statUid := fun _ => some 0, executable := fun _ => false,
    allocOk := true, logOpenable := true }

/-- Like `Wok` but every file is owned by uid 7, neither root nor panel. -/
def Wbad : World :=
  { uid := 1000, euid := 0, gid := 1000, panelUid := some 997,
    statUid := fun _ => some 7, executable := fun _ => true,
    allocOk := true, logOpenable := true }

/-- Like `Wok` but the panel account lookup fails and every file is owned
by uid `(uid_t)-1`. -/
def Wnp : World :=
  { uid := 1000, euid := 0, gid := 1000, panelUid := none,
    statUid := fun _ => some 4294967295, executable := fun _ => true,
    allocOk := true, logOpenable := true }

/-! ### The claims -/

/-- Claim C1: for every invocation, the path handed to execve is one of
exactly the two fixed absolute constants, selected only by the command
name; two runs with the same command but different worlds, argv[0] or
arguments execute the same path. -/
theorem claim_C1_exec_path_fixed (w w2 : World) (a0 a02 cmd : String)
    (rest rest2 : List String) (p p2 : String) (args args2 env env2 : List String)
    (h : (run w (a0 :: cmd :: rest)).fst = Outcome.exec p args env)
    (h2 : (run w2 (a02 :: cmd :: rest2)).fst = Outcome.exec p2 args2 env2) :
    (p = AUTODEPLOY ∨ p = MEMWATCH) ∧ p = p2 := by
  obtain ⟨hc, hp, -, -⟩ := run_exec_shape w a0 cmd rest p args env h
  obtain ⟨-, hp2, -, -⟩ := run_exec_shape w2 a02 cmd rest2 p2 args2 env2 h2
  subst hp hp2
  refine ⟨?_, rfl⟩
  rcases hc with h1 | h1 <;> subst h1 <;> simp [scriptFor]

/-- Witness for C1: two autodeploy runs with different arguments both
execute the autodeploy script. -/
theorem claim_C1_exec_path_fixed_witness :
    (AUTODEPLOY = AUTODEPLOY ∨ AUTODEPLOY = MEMWATCH) ∧ AUTODEPLOY = AUTODEPLOY :=
  claim_C1_exec_path_fixed Wok Wok "w" "w2" "autodeploy" ["https://a"] []
    AUTODEPLOY AUTODEPLOY [AUTODEPLOY] [AUTODEPLOY]
    ["DOWNLOAD_URL=https://a", "PATH=/usr/bin:/bin", "LANG=C"]
    ["PATH=/usr/bin:/bin", "LANG=C"]
    (by decide) (by decide)

/-- Claim C2: the environment handed to execve is exactly PATH and LANG,
with one command-specific entry holding the argument verbatim prepended
when an argument was supplied, and never more than 3 entries; nothing is
inherited from the caller. -/
theorem claim_C2_sanitized_env (w : World) (a0 cmd : String) (rest : List String)
    (p : String) (args env : List String)
    (h : (run w (a0 :: cmd :: rest)).fst = Outcome.exec p args env) :
    env.length ≤ 3 ∧
      ((rest.head? = none ∧ env = ["PATH=/usr/bin:/bin", "LANG=C"]) ∨
        (∃ a, rest.head? = some a ∧
          env = [(if cmd == "autodeploy" then "DOWNLOAD_URL=" ++ a
                  else "ET_PID_FILE=" ++ a),
                 "PATH=/usr/bin:/bin", "LANG=C"])) := by
  obtain ⟨-, -, -, he⟩ := run_exec_shape w a0 cmd rest p args env h
  subst he
  cases hr : rest.head? with
  | none => simp [buildEnv, envp_default]
  | some a =>
    rw [buildEnv_some]
    exact ⟨by simp, Or.inr ⟨a, rfl, rfl⟩⟩

/-- Witness for C2: a valid autodeploy invocation with an argument. -/
theorem claim_C2_sanitized_env_witness :
    (["DOWNLOAD_URL=https://a", "PATH=/usr/bin:/bin", "LANG=C"] : List String).length ≤ 3 ∧
      (((["https://a"] : List String).head? = none ∧
          (["DOWNLOAD_URL=https://a", "PATH=/usr/bin:/bin", "LANG=C"] : List String) =
            ["PATH=/usr/bin:/bin", "LANG=C"]) ∨
        (∃ a, (["https://a"] : List String).head? = some a ∧
          (["DOWNLOAD_URL=https://a", "PATH=/usr/bin:/bin", "LANG=C"] : List String) =
            [(if ("autodeploy" : String) == "autodeploy" then "DOWNLOAD_URL=" ++ a
              else "ET_PID_FILE=" ++ a),
             "PATH=/usr/bin:/bin", "LANG=C"])) :=
  claim_C2_sanitized_env Wok "w" "autodeploy" ["https://a"] AUTODEPLOY [AUTODEPLOY]
    ["DOWNLOAD_URL=https://a", "PATH=/usr/bin:/bin", "LANG=C"] (by decide)

end PanelWrapper

namespace PanelWrapper

/-- Claim C3: for autodeploy, an absent argument is valid; a present
argument is valid exactly when it is at most 2048 bytes and begins with
the literal http:// or https://; any violation exits with code 3, in
every world, hence before any script check or environment construction. -/
theorem claim_C3_autodeploy_url_grammar (w : World) (a0 u : String)
    (rest : List String) :
    ((run w (a0 :: "autodeploy" :: u :: rest)).fst = Outcome.exit 3 ↔
      ¬ (u.utf8ByteSize ≤ 2048 ∧
          (starts_with u "http://" = true ∨ starts_with u "https://" = true))) ∧
    (run w [a0, "autodeploy"]).fst ≠ Outcome.exit 3 := by
  constructor
  · rw [run_fst_eq]
    simp only [List.head?_cons, Option.isSome_some, Bool.true_and, beq_self_eq_true,
      if_true]
    rcases hv : is_valid_url (some u) with _ | _
    · have hC := is_valid_url_some_iff u
      rw [hv] at hC
      simp only [Bool.false_eq_true, false_iff] at hC
      simp [hv, hC]
    · have hC := (is_valid_url_some_iff u).mp hv
      simp only [hv, Bool.not_true, Bool.and_false, Bool.false_eq_true, if_false]
      constructor
      · intro h3
        exact absurd h3 (runChecked_fst_ne_exit3 w [] "autodeploy" (some u) AUTODEPLOY)
      · intro hn
        exact absurd hC hn
  · rw [run_fst_eq]
    simp only [List.head?_nil, Option.isSome_none, Bool.false_and, beq_self_eq_true,
      if_true, Bool.false_eq_true, if_false]
    exact runChecked_fst_ne_exit3 w [] "autodeploy" none AUTODEPLOY

/-- Witness for C3: a bad scheme is rejected with exit code 3. -/
theorem claim_C3_autodeploy_url_grammar_witness :
    (run Wok ["w", "autodeploy", "ftp://x"]).fst = Outcome.exit 3 :=
  (claim_C3_autodeploy_url_grammar Wok "w" "ftp://x" []).1.mpr (by decide)

/-- Claim C4: for memwatch, a present argument is valid exactly when it
is at most 4096 bytes, starts with a slash, and begins with one of the
literal allowed directories; any violation exits with code 3 and no
target script is invoked; dot-dot segments are not rejected. -/
theorem claim_C4_memwatch_path_grammar (w : World) (a0 p : String)
    (rest : List String) :
    ((run w (a0 :: "memwatch" :: p :: rest)).fst = Outcome.exit 3 ↔
      ¬ (p.utf8ByteSize ≤ 4096 ∧ starts_with p "/" = true ∧
          (starts_with p "/var/run/" = true ∨ starts_with p "/var/tmp/" = true ∨
            starts_with p "/tmp/" = true))) ∧
    ((run w (a0 :: "memwatch" :: p :: rest)).fst = Outcome.exit 3 →
      ∀ q args env, (run w (a0 :: "memwatch" :: p :: rest)).fst ≠ Outcome.exec q args env) ∧
    is_safe_path (some "/tmp/../etc/passwd") = true := by
  refine ⟨?_, ?_, by decide⟩
  · rw [run_fst_eq]
    simp only [List.head?_cons, Option.isSome_some, Bool.true_and,
      show (("memwatch" : String) == "autodeploy") = false by decide,
      beq_self_eq_true, if_true, Bool.false_eq_true, if_false]
    rcases hv : is_safe_path (some p) with _ | _
    · have hC := is_safe_path_some_iff p
      rw [hv] at hC
      simp only [Bool.false_eq_true, false_iff] at hC
      simp [hv, hC]
    · have hC := (is_safe_path_some_iff p).mp hv
      simp only [hv, Bool.not_true, Bool.and_false, Bool.false_eq_true, if_false]
      constructor
      · intro h3
        exact absurd h3 (runChecked_fst_ne_exit3 w [] "memwatch" (some p) MEMWATCH)
      · intro hn
        exact absurd hC hn
  · intro h3 q args env hx
    rw [h3] at hx
    cases hx

/-- Witness for C4: a path outside the allowed directories is rejected
with exit code 3. -/
theorem claim_C4_memwatch_path_grammar_witness :
    (run Wok ["w", "memwatch", "/etc/passwd"]).fst = Outcome.exit 3 :=
  (claim_C4_memwatch_path_grammar Wok "w" "/etc/passwd" []).1.mpr (by decide)

end PanelWrapper

namespace PanelWrapper

/-- Claim C5: with the panel account resolvable at call time, the
ownership check accepts exactly the files whose owner is root (uid 0) or
the resolved panel uid; when the check fails on a recognized command with
an acceptable argument and an executable script, the program exits with
code 5 and no target script is invoked. -/
theorem claim_C5_ownership_check (w : World) (pu : Nat)
    (hpu : w.panelUid = some pu) (path a0 : String) :
    (file_owned_by_allowed w path = true ↔
      ∃ su, w.statUid path = some su ∧ (su = 0 ∨ su = pu)) ∧
    ∀ cmd rest, (cmd = "autodeploy" ∨ cmd = "memwatch") →
      arg_ok cmd (List.head? rest) = true →
      w.executable (scriptFor cmd) = true →
      file_owned_by_allowed w (scriptFor cmd) = false →
      (run w (a0 :: cmd :: rest)).fst = Outcome.exit 5 := by
  refine ⟨file_owned_by_allowed_some_iff w pu hpu path, ?_⟩
  intro cmd rest hcmd hok hex hown
  rw [run_fst_valid w a0 cmd rest hcmd hok]
  exact runChecked_exit5 w [] cmd rest.head? (scriptFor cmd) hex hown

/-- Witness for C5: a script owned by uid 7 (neither root nor panel uid
997) is rejected with exit code 5. -/
theorem claim_C5_ownership_check_witness :
    (run Wbad ["w", "autodeploy", "https://a"]).fst = Outcome.exit 5 :=
  (claim_C5_ownership_check Wbad 997 rfl "/x" "w").2 "autodeploy" ["https://a"]
    (Or.inl rfl) (by decide) (by decide) (by decide)

/-- Claim C6: a missing command or a command outside the recognized set
exits with the usage-error code 2, in every world, hence without reaching
the provenance checks, the environment build or the transfer. -/
theorem claim_C6_unknown_command (w : World) (argv : List String) :
    (argv.length < 2 → (run w argv).fst = Outcome.exit 2) ∧
    (∀ a0 cmd rest, argv = a0 :: cmd :: rest →
      cmd ≠ "autodeploy" → cmd ≠ "memwatch" →
      (run w argv).fst = Outcome.exit 2) := by
  constructor
  · intro h
    match argv with
    | [] => rfl
    | [a0] => rfl
    | a0 :: b :: rest =>
      simp at h
      omega
  · rintro a0 cmd rest rfl h1 h2
    rw [run_fst_eq]
    have hb1 : (cmd == "autodeploy") = false := by simpa using h1
    have hb2 : (cmd == "memwatch") = false := by simpa using h2
    simp [hb1, hb2]

/-- Witness for C6: an unrecognized command exits with code 2. -/
theorem claim_C6_unknown_command_witness :
    (run Wok ["w", "frobnicate"]).fst = Outcome.exit 2 :=
  (claim_C6_unknown_command Wok ["w", "frobnicate"]).2 "w" "frobnicate" [] rfl
    (by decide) (by decide)

/-- Counterexample to C7 as stated: with the autodeploy script not
executable, the invalid argument "ftp://x" exits with code 3, not 4 —
argument validation precedes the executability check. -/
theorem claim_C7_counterexample :
    Wnx.executable AUTODEPLOY = false ∧
    (run Wnx ["w", "autodeploy", "ftp://x"]).fst = Outcome.exit 3 ∧
    (run Wnx ["w", "autodeploy", "ftp://x"]).fst ≠ Outcome.exit 4 :=
  ⟨rfl, by decide, by decide⟩

/-- Claim C7 as amended: for a recognized command whose optional argument
passes its grammar, a target script without execute permission yields
exit code 4 (an invalid argument instead exits with code 3 first). -/
theorem claim_C7_not_executable (w : World) (a0 cmd : String)
    (rest : List String)
    (hcmd : cmd = "autodeploy" ∨ cmd = "memwatch")
    (hok : arg_ok cmd (List.head? rest) = true)
    (hex : w.executable (scriptFor cmd) = false) :
    (run w (a0 :: cmd :: rest)).fst = Outcome.exit 4 := by
  rw [run_fst_valid w a0 cmd rest hcmd hok]
  exact runChecked_exit4 w [] cmd rest.head? (scriptFor cmd) hex

/-- Witness for the amended C7: a valid URL with a non-executable script
exits with code 4. -/
theorem claim_C7_not_executable_witness :
    (run Wnx ["w", "autodeploy", "https://a"]).fst = Outcome.exit 4 :=
  claim_C7_not_executable Wnx "w" "autodeploy" ["https://a"] (Or.inl rfl)
    (by decide) (by decide)

end PanelWrapper

namespace PanelWrapper

/-- Claim C8: log-open failure is never escalated — `logmsg` returns with
the log unchanged when the file cannot be opened, and the outcome of any
invocation (exit code or executed target with its arguments and
environment) is the same whether or not the log can be opened. -/
theorem claim_C8_log_fail_open (w : World) (b : Bool) (argv : List String) :
    (run { w with logOpenable := b } argv).fst = (run w argv).fst ∧
    ∀ log msg, logmsg { w with logOpenable := false } log msg = log := by
  exact ⟨run_fst_congr w { w with logOpenable := b } rfl rfl rfl rfl argv,
    fun log msg => rfl⟩

/-- Claim C9: when the panel account lookup fails, the ownership check
reports no error and accepts exactly the files whose owner is uid 0 or
the sentinel `(uid_t)-1 = 4294967295` substituted for the failed lookup. -/
theorem claim_C9_pwnam_failure_sentinel (w : World)
    (hpu : w.panelUid = none) (path : String) :
    UID_MINUS_ONE = 4294967295 ∧
      (file_owned_by_allowed w path = true ↔
        ∃ su, w.statUid path = some su ∧ (su = 0 ∨ su = UID_MINUS_ONE)) :=
  ⟨rfl, file_owned_by_allowed_none_iff w hpu path⟩

/-- Witness for C9: with the lookup failing and a file owned by
4294967295, the check accepts. -/
theorem claim_C9_pwnam_failure_sentinel_witness :
    UID_MINUS_ONE = 4294967295 ∧
      (file_owned_by_allowed Wnp "/x" = true ↔
        ∃ su, Wnp.statUid "/x" = some su ∧ (su = 0 ∨ su = UID_MINUS_ONE)) :=
  claim_C9_pwnam_failure_sentinel Wnp rfl "/x"

/-- Claim C10: positional arguments beyond the second are silently
ignored — two invocations agreeing on the command and the optional
argument, whatever their argv[0] and any further arguments, produce the
same outcome (exit code, executed path, its arguments and environment)
and the same audit log. -/
theorem claim_C10_extra_args_ignored (w : World) (a0 a02 cmd a : String)
    (rest rest2 : List String) :
    run w (a0 :: cmd :: a :: rest) = run w (a02 :: cmd :: a :: rest2) := rfl

end PanelWrapper
